import Mathlib

/-!
Shallow embedding of the rental-booking service (`main.py`): the equipment
and booking tables, the booking engine `create_booking`, the equipment
creation endpoint `create_equipment`, and the Instagram webhook handlers
`verify_webhook` / `receive_message`.  Dates are modelled as integers (day
numbers), so Python's `(end_date - start_date).days` is plain integer
subtraction; monetary values are rationals.
-/

/-- A row of the `equipment` table (`EquipmentDB`). -/
structure Equipment where
  id : Nat
  name : String
  category : String
  description : Option String
  price_per_day : ℚ
  image_url : Option String

/-- A row of the `bookings` table (`BookingDB`). -/
structure Booking where
  id : Nat
  equipment_id : Nat
  customer_name : String
  customer_email : String
  start_date : Int
  end_date : Int
  total_price : ℚ
  status : String

/-- The persistent database state: both tables (rows in insertion order) plus
the autoincrement counters for the primary keys. -/
structure St where
  equipment : List Equipment
  bookings : List Booking
  nextEquipmentId : Nat
  nextBookingId : Nat

/-- Request body of `POST /equipment/` (`EquipmentCreate`). -/
structure EquipmentCreate where
  name : String
  category : String
  description : Option String
  price_per_day : ℚ
  image_url : Option String

/-- Request body of `POST /bookings/` (`BookingCreate`). -/
structure BookingCreate where
  equipment_id : Nat
  customer_name : String
  customer_email : String
  start_date : Int
  end_date : Int

/-- The freshly created database (`Base.metadata.create_all`): empty tables. -/
def emptySt : St := ⟨[], [], 1, 1⟩

/-- `db.query(EquipmentDB).filter(EquipmentDB.id == equipment_id).first()`. -/
def findEquipment (st : St) (eid : Nat) : Option Equipment :=
  st.equipment.find? (fun e => e.id == eid)

/-- `create_equipment`: persists the request body unvalidated and returns the
new row with its assigned id. -/
def create_equipment (st : St) (req : EquipmentCreate) : St × Equipment :=
  let e : Equipment :=
    ⟨st.nextEquipmentId, req.name, req.category, req.description,
      req.price_per_day, req.image_url⟩
  (⟨st.equipment ++ [e], st.bookings, st.nextEquipmentId + 1, st.nextBookingId⟩, e)

/-- The three `HTTPException`s `create_booking` can raise (404, 400, 409). -/
inductive BookingError where
  | NotFound
  | InvalidRange
  | Conflict
  deriving DecidableEq

/-- The availability filter of `create_booking`:
`BookingDB.equipment_id == booking.equipment_id`,
`BookingDB.end_date >= booking.start_date`,
`BookingDB.start_date <= booking.end_date`. -/
def overlapsReq (req : BookingCreate) (b : Booking) : Bool :=
  b.equipment_id == req.equipment_id
    && decide (b.end_date ≥ req.start_date)
    && decide (b.start_date ≤ req.end_date)

/-- `create_booking` (`POST /bookings/`): equipment existence check, date
range check, overlap count check, then price computation and insert.  The
returned state is the database after the call; the error exits leave it
untouched, exactly as the `raise` statements do. -/
def create_booking (st : St) (req : BookingCreate) :
    St × Except BookingError Booking :=
  match findEquipment st req.equipment_id with
  | none => (st, .error .NotFound)
  | some equip =>
    if req.start_date > req.end_date then (st, .error .InvalidRange)
    else
      let overlapping := (st.bookings.filter (overlapsReq req)).length
      if overlapping > 0 then (st, .error .Conflict)
      else
        let num_days : Int := (req.end_date - req.start_date) + 1
        let total_price : ℚ := (num_days : ℚ) * equip.price_per_day
        let bk : Booking :=
          ⟨st.nextBookingId, req.equipment_id, req.customer_name,
            req.customer_email, req.start_date, req.end_date, total_price,
            "confirmed"⟩
        (⟨st.equipment, st.bookings ++ [bk], st.nextEquipmentId,
            st.nextBookingId + 1⟩, .ok bk)

/-- Database states reachable from the fresh database through the two
mutating endpoints (`POST /equipment/` and `POST /bookings/`). -/
inductive Reachable : St → Prop where
  | empty : Reachable emptySt
  | equip {st : St} (req : EquipmentCreate) :
      Reachable st → Reachable (create_equipment st req).1
  | book {st : St} (req : BookingCreate) :
      Reachable st → Reachable (create_booking st req).1

/-- The booking row inserted by a successful `create_booking` call. -/
def newBooking (st : St) (req : BookingCreate) (equip : Equipment) : Booking :=
  ⟨st.nextBookingId, req.equipment_id, req.customer_name, req.customer_email,
    req.start_date, req.end_date,
    ((req.end_date - req.start_date + 1 : Int) : ℚ) * equip.price_per_day,
    "confirmed"⟩

theorem cb_error_state (st : St) (req : BookingCreate) (e : BookingError)
    (h : (create_booking st req).2 = .error e) : (create_booking st req).1 = st := by
  cases hf : findEquipment st req.equipment_id with
  | none => simp [create_booking, hf]
  | some equip =>
    by_cases h1 : req.start_date > req.end_date
    · simp [create_booking, hf, h1]
    · by_cases h2 : (st.bookings.filter (overlapsReq req)).length > 0
      · simp [create_booking, hf, h1, h2]
      · simp [create_booking, hf, h1, h2] at h

theorem cb_ok (st : St) (req : BookingCreate) (equip : Equipment)
    (hf : findEquipment st req.equipment_id = some equip)
    (h1 : req.start_date ≤ req.end_date)
    (h2 : st.bookings.filter (overlapsReq req) = []) :
    create_booking st req =
      (⟨st.equipment, st.bookings ++ [newBooking st req equip],
          st.nextEquipmentId, st.nextBookingId + 1⟩,
        .ok (newBooking st req equip)) := by
  simp only [create_booking, hf]
  rw [if_neg (not_lt.mpr h1)]
  simp [h2, newBooking]

theorem cb_ok_inv (st : St) (req : BookingCreate) (bk : Booking)
    (h : (create_booking st req).2 = .ok bk) :
    ∃ equip, findEquipment st req.equipment_id = some equip ∧
      req.start_date ≤ req.end_date ∧
      st.bookings.filter (overlapsReq req) = [] ∧
      bk = newBooking st req equip ∧
      (create_booking st req).1 =
        ⟨st.equipment, st.bookings ++ [bk], st.nextEquipmentId,
          st.nextBookingId + 1⟩ := by
  cases hf : findEquipment st req.equipment_id with
  | none => simp [create_booking, hf] at h
  | some equip =>
    by_cases h1 : req.start_date > req.end_date
    · simp [create_booking, hf, h1] at h
    · by_cases h2 : (st.bookings.filter (overlapsReq req)).length > 0
      · simp [create_booking, hf, h1, h2] at h
      · have hfil : st.bookings.filter (overlapsReq req) = [] :=
          List.length_eq_zero.mp (Nat.eq_zero_of_not_pos h2)
        have hcb := cb_ok st req equip hf (not_lt.mp h1) hfil
        rw [hcb] at h
        have hbk : newBooking st req equip = bk := Except.ok.inj h
        subst hbk
        exact ⟨equip, rfl, not_lt.mp h1, hfil, rfl, by rw [hcb]⟩

theorem cb_conflict (st : St) (req : BookingCreate) (equip : Equipment)
    (hf : findEquipment st req.equipment_id = some equip)
    (h1 : req.start_date ≤ req.end_date)
    (b : Booking) (hb : b ∈ st.bookings) (hov : overlapsReq req b = true) :
    (create_booking st req).2 = .error .Conflict := by
  have hlen : 0 < (st.bookings.filter (overlapsReq req)).length :=
    List.length_pos.mpr (List.ne_nil_of_mem (List.mem_filter.mpr ⟨hb, hov⟩))
  simp only [create_booking, hf]
  rw [if_neg (not_lt.mpr h1)]
  simp [hlen]

/-- The claimed overlap relation between two persisted bookings:
`end_date >= other.start_date AND start_date <= other.end_date`. -/
def bOverlap (a b : Booking) : Prop :=
  b.start_date ≤ a.end_date ∧ a.start_date ≤ b.end_date

/-- Store invariant maintained by the endpoints: every persisted booking has
status `"confirmed"`, a valid date range, and refers to an existing equipment
row, and no two bookings on the same equipment have overlapping inclusive
ranges. -/
def BookingsOk (st : St) : Prop :=
  (∀ b ∈ st.bookings,
      b.status = "confirmed" ∧ b.start_date ≤ b.end_date ∧
      (findEquipment st b.equipment_id).isSome) ∧
  st.bookings.Pairwise
    (fun a b => a.equipment_id = b.equipment_id → ¬ bOverlap a b)

theorem findEquipment_append_isSome (st : St) (es : List Equipment) (eid : Nat)
    (h : (findEquipment st eid).isSome) :
    (List.find? (fun e => e.id == eid) (st.equipment ++ es)).isSome := by
  obtain ⟨e, he⟩ := Option.isSome_iff_exists.mp h
  rw [List.find?_append]
  unfold findEquipment at he
  rw [he]
  rfl

theorem not_overlapsReq_same_eid (req : BookingCreate) (a : Booking)
    (hno : ¬ overlapsReq req a = true) (heid : a.equipment_id = req.equipment_id) :
    ¬ (req.start_date ≤ a.end_date ∧ a.start_date ≤ req.end_date) := by
  intro ⟨hl, hr⟩
  exact hno (by simp [overlapsReq, heid, hl, hr])

theorem reachable_inv {st : St} (h : Reachable st) : BookingsOk st := by
  induction h with
  | empty =>
    exact ⟨(by intro b hb; cases hb), List.Pairwise.nil⟩
  | equip req hr ih =>
    obtain ⟨h1, h2⟩ := ih
    refine ⟨?_, h2⟩
    intro b hb
    exact ⟨(h1 b hb).1, (h1 b hb).2.1,
      findEquipment_append_isSome _ _ _ (h1 b hb).2.2⟩
  | book req hr ih =>
    rename_i stp
    obtain ⟨h1, h2⟩ := ih
    cases hres : (create_booking stp req).2 with
    | error e =>
      rw [cb_error_state stp req e hres]
      exact ⟨h1, h2⟩
    | ok bk =>
      obtain ⟨equip, hf, hrange, hfilter, hbk, hstate⟩ := cb_ok_inv stp req bk hres
      rw [hstate]
      have hnotov : ∀ a ∈ stp.bookings, ¬ overlapsReq req a = true := by
        intro a ha
        exact List.filter_eq_nil_iff.mp hfilter a ha
      constructor
      · intro b hb
        rcases List.mem_append.mp hb with hbold | hbnew
        · exact ⟨(h1 b hbold).1, (h1 b hbold).2.1, (h1 b hbold).2.2⟩
        · rw [List.mem_singleton.mp hbnew, hbk]
          exact ⟨rfl, hrange, Option.isSome_iff_exists.mpr ⟨equip, hf⟩⟩
      · refine List.pairwise_append.mpr ⟨h2, List.pairwise_singleton _ _, ?_⟩
        intro a ha b hb heid
        rw [List.mem_singleton.mp hb, hbk] at heid ⊢
        intro hov
        exact not_overlapsReq_same_eid req a (hnotov a ha) heid
          ⟨hov.1, hov.2⟩


/-- Sample equipment request used by the witnesses: price 100 per day. -/
def eqReq1 : EquipmentCreate := ⟨"Camara Sony", "Camaras", none, 100, none⟩

/-- Store holding just the sample equipment (id 1). -/
def st1 : St := (create_equipment emptySt eqReq1).1

/-- Same-day booking request for equipment 1 on day 10. -/
def bkReq1 : BookingCreate := ⟨1, "Ana", "ana@mail.com", 10, 10⟩

/-- Store after the sample booking succeeded. -/
def st2 : St := (create_booking st1 bkReq1).1

/-- The booking row persisted in `st2`. -/
def bRow1 : Booking := newBooking st1 bkReq1 (create_equipment emptySt eqReq1).2

/-- C1: for equipment `e` persisted in the store and a booking request on
`e.id` with `start_date ≤ end_date` intersecting no existing booking for
that equipment, `create_booking` succeeds and the persisted booking has
`total_price = ((end_date - start_date) + 1) * e.price_per_day` and status
`"confirmed"`; with `start_date = end_date` this charges exactly one day. -/
theorem create_booking_success_price (st : St) (req : BookingCreate)
    (e : Equipment) (he : findEquipment st req.equipment_id = some e)
    (hd : req.start_date ≤ req.end_date)
    (hno : ∀ b ∈ st.bookings, b.equipment_id = req.equipment_id →
      ¬ (b.end_date ≥ req.start_date ∧ b.start_date ≤ req.end_date)) :
    ∃ bk, (create_booking st req).2 = .ok bk ∧
      bk ∈ (create_booking st req).1.bookings ∧
      bk.total_price =
        ((req.end_date - req.start_date + 1 : Int) : ℚ) * e.price_per_day ∧
      bk.status = "confirmed" := by
  have hfil : st.bookings.filter (overlapsReq req) = [] := by
    refine List.filter_eq_nil_iff.mpr ?_
    intro b hb hov
    simp only [overlapsReq, Bool.and_eq_true, beq_iff_eq, decide_eq_true_eq] at hov
    exact hno b hb hov.1.1 ⟨hov.1.2, hov.2⟩
  have hcb := cb_ok st req e he hd hfil
  refine ⟨newBooking st req e, ?_, ?_, rfl, rfl⟩
  · rw [hcb]
  · rw [hcb]
    exact List.mem_append_right _ (List.mem_singleton_self _)

/-- C1 witness: equipment at 100 per day, same-day booking 10..10. -/
theorem create_booking_success_price_witness :
    ∃ bk, (create_booking st1 bkReq1).2 = .ok bk ∧
      bk ∈ (create_booking st1 bkReq1).1.bookings ∧
      bk.total_price =
        ((bkReq1.end_date - bkReq1.start_date + 1 : Int) : ℚ) *
          ((create_equipment emptySt eqReq1).2).price_per_day ∧
      bk.status = "confirmed" :=
  create_booking_success_price st1 bkReq1 (create_equipment emptySt eqReq1).2
    rfl (by decide) (by intro b hb; exact absurd hb (List.not_mem_nil b))

/-- C2: in every reachable store state no two persisted `"confirmed"`
bookings on the same equipment have intersecting inclusive ranges, and a
sequential `create_booking` attempt with a valid range intersecting an
already-persisted booking for the same equipment fails with `Conflict`,
including the boundary where one range ends on the day the other starts. -/
theorem no_overlap_invariant {st : St} (h : Reachable st) :
    st.bookings.Pairwise (fun a b =>
      a.equipment_id = b.equipment_id → a.status = "confirmed" →
      b.status = "confirmed" → ¬ bOverlap a b) ∧
    ∀ req : BookingCreate, req.start_date ≤ req.end_date →
      (∃ b ∈ st.bookings, b.equipment_id = req.equipment_id ∧
        b.end_date ≥ req.start_date ∧ b.start_date ≤ req.end_date) →
      (create_booking st req).2 = .error .Conflict := by
  obtain ⟨h1, h2⟩ := reachable_inv h
  constructor
  · exact h2.imp (fun hab heid _ _ => hab heid)
  · rintro req hrange ⟨b, hb, heid, hov1, hov2⟩
    obtain ⟨equip, hf⟩ := Option.isSome_iff_exists.mp ((h1 b hb).2.2)
    rw [heid] at hf
    exact cb_conflict st req equip hf hrange b hb
      (by simp [overlapsReq, heid, hov1, hov2])

/-- C2 witness: equipment 1 booked for day 10..10; a second request 10..12,
starting exactly on the day the first ends, is rejected with `Conflict`. -/
theorem no_overlap_invariant_witness :
    (create_booking st2 ⟨1, "Luis", "luis@mail.com", 10, 12⟩).2 =
      .error .Conflict :=
  (no_overlap_invariant
      (Reachable.book bkReq1 (Reachable.equip eqReq1 Reachable.empty))).2
    ⟨1, "Luis", "luis@mail.com", 10, 12⟩ (by decide)
    ⟨bRow1, List.mem_singleton_self bRow1, rfl, by decide, by decide⟩

/-- C3 counterexample: with no equipment persisted and `start_date >
end_date` (5 > 3), the call returns `NotFound`, not `InvalidRange`, so the
"regardless of whether the referenced equipment id exists" part is false. -/
theorem invalid_range_counterexample :
    (create_booking emptySt ⟨1, "Ana", "ana@mail.com", 5, 3⟩).2 =
        .error .NotFound ∧
      BookingError.NotFound ≠ BookingError.InvalidRange :=
  ⟨rfl, by decide⟩

/-- C3 amended: when the referenced equipment exists, a request with
`start_date > end_date` fails with `InvalidRange` (400). -/
theorem create_booking_invalid_range (st : St) (req : BookingCreate)
    (e : Equipment) (he : findEquipment st req.equipment_id = some e)
    (hd : req.end_date < req.start_date) :
    (create_booking st req).2 = .error .InvalidRange := by
  simp [create_booking, he, hd]

/-- C3 amended witness: existing equipment, range 12 > 10. -/
theorem create_booking_invalid_range_witness :
    (create_booking st1 ⟨1, "Ana", "ana@mail.com", 12, 10⟩).2 =
      .error .InvalidRange :=
  create_booking_invalid_range st1 ⟨1, "Ana", "ana@mail.com", 12, 10⟩
    (create_equipment emptySt eqReq1).2 rfl (by decide)

/-- C4: a `create_booking` request whose equipment id matches no persisted
equipment fails with `NotFound` for every choice of dates, including invalid
ranges: the existence check precedes date validation. -/
theorem create_booking_missing_equipment (st : St) (req : BookingCreate)
    (h : findEquipment st req.equipment_id = none) :
    (create_booking st req).2 = .error .NotFound := by
  simp [create_booking, h]

/-- C4 witness: unknown equipment id and an invalid range (5 > 3) still
yield `NotFound`. -/
theorem create_booking_missing_equipment_witness :
    (create_booking emptySt ⟨7, "Eva", "eva@mail.com", 5, 3⟩).2 =
        .error .NotFound ∧
      (5 : Int) > 3 :=
  ⟨create_booking_missing_equipment emptySt ⟨7, "Eva", "eva@mail.com", 5, 3⟩
      rfl,
    by decide⟩

/-- C7 counterexample: `create_equipment` performs no validation, so a
request with negative `price_per_day` (-5) persists a row whose price is
negative. -/
theorem equipment_negative_price :
    ∃ e ∈ (create_equipment emptySt
        ⟨"Taladro", "Herramientas", none, -5, none⟩).1.equipment,
      e.price_per_day < 0 :=
  ⟨(create_equipment emptySt ⟨"Taladro", "Herramientas", none, -5, none⟩).2,
    List.mem_singleton_self _, (by show (-5 : ℚ) < 0; norm_num)⟩

/-- C7 amended: `create_equipment` persists the supplied `price_per_day`
unchanged with no sign check, so non-negativity of all persisted equipment
is preserved exactly when every supplied price is non-negative;
`create_booking` never modifies the equipment table. -/
theorem equipment_price_preservation (st : St) (req : EquipmentCreate)
    (hst : ∀ e ∈ st.equipment, 0 ≤ e.price_per_day)
    (hreq : 0 ≤ req.price_per_day) (stb : St) (reqb : BookingCreate) :
    (create_equipment st req).2.price_per_day = req.price_per_day ∧
    (∀ e ∈ (create_equipment st req).1.equipment, 0 ≤ e.price_per_day) ∧
    (create_booking stb reqb).1.equipment = stb.equipment := by
  refine ⟨rfl, ?_, ?_⟩
  · intro e he
    rcases List.mem_append.mp he with hme | hme
    · exact hst e hme
    · rw [List.mem_singleton.mp hme]
      exact hreq
  · cases hres : (create_booking stb reqb).2 with
    | error err => rw [cb_error_state stb reqb err hres]
    | ok bk =>
      obtain ⟨equip, _, _, _, _, hstate⟩ := cb_ok_inv stb reqb bk hres
      rw [hstate]

/-- C7 amended witness. -/
theorem equipment_price_preservation_witness :
    (create_equipment emptySt eqReq1).2.price_per_day =
        eqReq1.price_per_day ∧
      (∀ e ∈ (create_equipment emptySt eqReq1).1.equipment,
        0 ≤ e.price_per_day) ∧
      (create_booking emptySt bkReq1).1.equipment = emptySt.equipment :=
  equipment_price_preservation emptySt eqReq1
    (by intro e he; exact absurd he (List.not_mem_nil e))
    (by show (0 : ℚ) ≤ 100; norm_num) emptySt bkReq1

/-- C9: `create_booking` is atomic on error: every `NotFound`,
`InvalidRange` or `Conflict` outcome leaves the store exactly as it was,
and on success exactly the returned row is appended to the booking store
while the equipment store is unchanged. -/
theorem create_booking_atomic (st : St) (req : BookingCreate) :
    (∀ e, (create_booking st req).2 = .error e →
      (create_booking st req).1 = st) ∧
    (∀ bk, (create_booking st req).2 = .ok bk →
      (create_booking st req).1.bookings = st.bookings ++ [bk] ∧
      (create_booking st req).1.equipment = st.equipment) := by
  constructor
  · exact fun e h => cb_error_state st req e h
  · intro bk h
    obtain ⟨equip, _, _, _, _, hstate⟩ := cb_ok_inv st req bk h
    rw [hstate]
    exact ⟨rfl, rfl⟩

/-- C9 witness: a booking against the empty store fails with `NotFound` and
leaves the store unchanged. -/
theorem create_booking_atomic_witness :
    (create_booking emptySt bkReq1).1 = emptySt :=
  (create_booking_atomic emptySt bkReq1).1 .NotFound rfl

/-- Result of `GET /webhook`: a plain-text 200 response carrying the echoed
challenge (empty body when the parameter is absent, as
`Response(content=None)` sends an empty body), or the 403 `HTTPException`. -/
inductive VerifyResult where
  | ok (status : Nat) (body : String)
  | forbidden (status : Nat)
  deriving DecidableEq

/-- `verify_webhook` (`GET /webhook`): echoes `hub.challenge` when
`hub.mode == "subscribe"` and `hub.verify_token` equals the configured
secret, else raises 403.  The three query parameters are optional because
`request.query_params.get` returns `None` when absent. -/
def verify_webhook (secret : String) (mode token challenge : Option String) :
    VerifyResult :=
  if mode = some "subscribe" ∧ token = some secret then
    .ok 200 (challenge.getD "")
  else .forbidden 403

/-- C6: with configured secret `S`, mode `"subscribe"` and a matching token
echo the supplied challenge with status 200; any different token, or any
different mode, yields `Forbidden` (403). -/
theorem verify_webhook_spec (S ch : String) (mode token : Option String) :
    verify_webhook S (some "subscribe") (some S) (some ch) = .ok 200 ch ∧
    (token ≠ some S ∨ mode ≠ some "subscribe" →
      verify_webhook S mode token (some ch) = .forbidden 403) := by
  constructor
  · simp [verify_webhook]
  · intro h
    have hcond : ¬ (mode = some "subscribe" ∧ token = some S) := by
      rintro ⟨hm, ht⟩
      rcases h with hh | hh
      · exact hh ht
      · exact hh hm
    simp [verify_webhook, hcond]

/-- C6 witness: secret "S", challenge "XYZ", and a mismatched token "T". -/
theorem verify_webhook_spec_witness :
    verify_webhook "S" (some "subscribe") (some "S") (some "XYZ") =
        .ok 200 "XYZ" ∧
      verify_webhook "S" (some "subscribe") (some "T") (some "XYZ") =
        .forbidden 403 :=
  ⟨(verify_webhook_spec "S" "XYZ" (some "subscribe") (some "T")).1,
    (verify_webhook_spec "S" "XYZ" (some "subscribe") (some "T")).2
      (Or.inl (by decide))⟩

/-- C10: the verify operation never checks that `hub.challenge` is present:
with matching mode and token but no challenge it still succeeds with status
200 and an empty body. -/
theorem verify_webhook_missing_challenge (S : String) :
    verify_webhook S (some "subscribe") (some S) none = .ok 200 "" := by
  simp [verify_webhook]

/-- A parsed JSON value, as produced by `await request.json()`. -/
inductive PyVal where
  | null
  | bool (b : Bool)
  | int (n : Int)
  | str (s : String)
  | list (xs : List PyVal)
  | dict (entries : List (String × PyVal))

/-- `v[k]` for a string key `k`: dictionary lookup.  `KeyError` (missing
key) and `TypeError` (any non-dict value, since string indices must be
integers) are both in the handler's `except` tuple, so every failure is
`none`. -/
def pyGetKey (v : PyVal) (k : String) : Option PyVal :=
  match v with
  | .dict es => (es.find? (fun p => p.1 == k)).map (fun p => p.2)
  | _ => none

/-- `v[i]` for a non-negative integer literal index: list indexing
(`IndexError` when out of range), string indexing (one-character string),
`KeyError` for dictionaries, `TypeError` otherwise — all of them caught. -/
def pyGetIdx (v : PyVal) (i : Nat) : Option PyVal :=
  match v with
  | .list xs => xs.get? i
  | .str s => (s.data.get? i).map (fun c => .str ⟨[c]⟩)
  | _ => none

/-- `needle.isPrefixOf`-based substring test over character lists, the model
of Python's `in` operator on strings (and of SQL `LIKE` with wildcards on
both sides). -/
def containsSub (needle : List Char) : List Char → Bool
  | [] => needle.isEmpty
  | c :: rest => needle.isPrefixOf (c :: rest) || containsSub needle rest

/-- `k in v`: key membership for dictionaries, substring test for strings,
element equality for lists; `TypeError` (caught) otherwise. -/
def pyContains (v : PyVal) (k : String) : Option Bool :=
  match v with
  | .dict es => some (es.any (fun p => p.1 == k))
  | .str s => some (containsSub k.data s.data)
  | .list xs =>
    some (xs.any (fun x => match x with | .str s => s == k | _ => false))
  | _ => none

/-- `str.lower()` (character-wise lowering). -/
def lowerStr (s : String) : String := ⟨s.data.map Char.toLower⟩

/-- `str.split()` with no separator: splits on whitespace runs, dropping
empty pieces. -/
def splitWsAux : List Char → List Char → List String
  | [], acc => [⟨acc.reverse⟩]
  | c :: cs, acc =>
    if c.isWhitespace then ⟨acc.reverse⟩ :: splitWsAux cs []
    else splitWsAux cs (c :: acc)

def pySplit (s : String) : List String :=
  (splitWsAux s.data []).filter (fun w => w ≠ "")

/-- The keyword lists of `receive_message`, in source order. -/
def priceKeywords : List String := ["precio", "costo", "cuánto"]

def availabilityKeywords : List String := ["disponible", "disponibilidad"]

def greetingKeywords : List String := ["hola", "info", "saludos"]

/-- The canned replies of `receive_message`. -/
def fallbackReply : String :=
  "No entendí tu consulta. Un agente humano te responderá pronto."

def askNameReply : String :=
  "Por favor, dime el nombre del equipo para darte el precio."

def availabilityReply : String :=
  "Puedes ver la disponibilidad de todos nuestros equipos en tiempo real en el calendario de nuestro sitio web."

def greetingReply : String :=
  "¡Hola! Gracias por contactarnos. Puedes ver nuestro catálogo, precios y disponibilidad en nuestro sitio web."

/-- The f-string price reply; the numeric rendering of the float price is
abstracted by `toString`. -/
def priceReply (e : Equipment) : String :=
  "¡Hola! El precio de \x27" ++ e.name ++ "\x27 es de $" ++
    toString e.price_per_day ++ " por día."

/-- `EquipmentDB.name.ilike` of `"%" + word + "%"`: case-insensitive
substring test of `word` against the row name. -/
def ilikeMatch (name word : String) : Bool :=
  containsSub (lowerStr word).data (lowerStr name).data

/-- The reply-selection logic of `receive_message` over the lower-cased
message text, mirroring the `if / elif / elif` chain and the
`equipment_name_guess` list comprehension.  Returns `none` on the path
where `equipment_name_guess` is non-empty but the follow-up `.first()`
query returns no row: there Python would evaluate `equipment.name` on
`None` and raise an uncaught `AttributeError` (the path is proved dead by
`selectReply_eq`). -/
def selectReply (st : St) (message_text : String) : Option String :=
  if priceKeywords.any (fun k => containsSub k.data message_text.data) then
    let equipment_name_guess := (pySplit message_text).filter
      (fun word => (st.equipment.find? (fun e => ilikeMatch e.name word)).isSome)
    match equipment_name_guess.head? with
    | some w =>
      match st.equipment.find? (fun e => ilikeMatch e.name w) with
      | some equipment => some (priceReply equipment)
      | none => none
    | none => some askNameReply
  else if availabilityKeywords.any
      (fun k => containsSub k.data message_text.data) then
    some availabilityReply
  else if greetingKeywords.any
      (fun k => containsSub k.data message_text.data) then
    some greetingReply
  else some fallbackReply

/-- The spec's wording of the reply policy, price branch: try each message
word in order, first word with a catalog match wins, and the chosen row is
the first matching one. -/
def firstNameMatch (st : St) : List String → Option Equipment
  | [] => none
  | w :: ws =>
    match st.equipment.find? (fun e => ilikeMatch e.name w) with
    | some e => some e
    | none => firstNameMatch st ws

/-- The spec's wording of the full policy: ordered keyword classes (price,
availability, greeting, fallback) over the lower-cased text, selecting one
of the four canned replies. -/
def selectReplySpec (st : St) (text : String) : String :=
  if priceKeywords.any (fun k => containsSub k.data text.data) then
    match firstNameMatch st (pySplit text) with
    | some e => priceReply e
    | none => askNameReply
  else if availabilityKeywords.any
      (fun k => containsSub k.data text.data) then
    availabilityReply
  else if greetingKeywords.any
      (fun k => containsSub k.data text.data) then
    greetingReply
  else fallbackReply

theorem firstNameMatch_filter (st : St) (ws : List String) :
    firstNameMatch st ws =
      ((ws.filter (fun w =>
          (st.equipment.find? (fun e => ilikeMatch e.name w)).isSome)).head?).bind
        (fun w => st.equipment.find? (fun e => ilikeMatch e.name w)) := by
  induction ws with
  | nil => rfl
  | cons w ws ih =>
    by_cases h : (st.equipment.find? (fun e => ilikeMatch e.name w)).isSome = true
    · obtain ⟨e, he⟩ := Option.isSome_iff_exists.mp h
      simp [firstNameMatch, List.filter_cons, h, he]
    · have hnone := Option.not_isSome_iff_eq_none.mp h
      simp [firstNameMatch, List.filter_cons, h, hnone, ih]

theorem selectReply_eq (st : St) (txt : String) :
    selectReply st txt = some (selectReplySpec st txt) := by
  unfold selectReply selectReplySpec
  by_cases hp : priceKeywords.any (fun k => containsSub k.data txt.data) = true
  · rw [firstNameMatch_filter]
    cases hh : ((pySplit txt).filter (fun w =>
        (st.equipment.find? (fun e => ilikeMatch e.name w)).isSome)).head? with
    | none => simp [hp, hh]
    | some w =>
      have hw : (st.equipment.find? (fun e => ilikeMatch e.name w)).isSome :=
        (List.mem_filter.mp
          (List.mem_of_mem_head? (Option.mem_def.mpr hh))).2
      obtain ⟨e, he⟩ := Option.isSome_iff_exists.mp hw
      simp [hp, hh, he]
  · by_cases ha : availabilityKeywords.any
        (fun k => containsSub k.data txt.data) = true
    · simp [hp, ha]
    · by_cases hg : greetingKeywords.any
          (fun k => containsSub k.data txt.data) = true
      · simp [hp, ha, hg]
      · simp [hp, ha, hg]

/-- Exceptions inside the webhook body handler: `caught` stands for the
`KeyError / IndexError / TypeError` tuple absorbed by the `except` clause;
`attrError` for the `AttributeError` raised by `.lower()` on a non-string
value — a type the clause does not list. -/
inductive PyExn where
  | caught
  | attrError
  deriving DecidableEq

/-- Lifts subscript / membership results; their failures are all caught. -/
def liftCaught {α : Type} : Option α → Except PyExn α
  | some a => .ok a
  | none => .error .caught

/-- The `try` block of `receive_message`: envelope traversal, text check,
reply selection.  Produces the `(sender_id, reply)` pair handed to
`send_instagram_message`, or `none` when no reply is dispatched. -/
def receiveTry (st : St) (body : PyVal) :
    Except PyExn (Option (PyVal × String)) := do
  let entry0 ← liftCaught (pyGetKey body "entry")
  let entry1 ← liftCaught (pyGetIdx entry0 0)
  let msgs ← liftCaught (pyGetKey entry1 "messaging")
  let message ← liftCaught (pyGetIdx msgs 0)
  let sender ← liftCaught (pyGetKey message "sender")
  let sender_id ← liftCaught (pyGetKey sender "id")
  let hasMsg ← liftCaught (pyContains message "message")
  if hasMsg then
    let inner ← liftCaught (pyGetKey message "message")
    let hasText ← liftCaught (pyContains inner "text")
    if hasText then
      let rawText ← liftCaught (pyGetKey inner "text")
      match rawText with
      | .str s =>
        let message_text := lowerStr s
        match selectReply st message_text with
        | some response_text => pure (some (sender_id, response_text))
        | none => throw .attrError
      | _ => throw .attrError
    else pure none
  else pure none

/-- Outcome of `POST /webhook`: a 200 acknowledgment carrying the message
that was sent (if any), or an uncaught exception surfacing as a server
error instead of the 200 response. -/
inductive RecvResult where
  | ok (status : Nat) (sent : Option (PyVal × String))
  | uncaught

/-- `receive_message` (`POST /webhook`): runs the `try` block; `KeyError`,
`IndexError` and `TypeError` are absorbed and the endpoint still returns
`Response(status_code=200)`; an `AttributeError` escapes the handler. -/
def receive_message (st : St) (body : PyVal) : RecvResult :=
  match receiveTry st body with
  | .ok sent => .ok 200 sent
  | .error .caught => .ok 200 none
  | .error .attrError => .uncaught

/-- Envelope whose nested `text` field is the integer 7, not a string. -/
def badEnvelope : PyVal :=
  .dict [("entry", .list [.dict [("messaging", .list [.dict
    [("sender", .dict [("id", .str "u1")]),
     ("message", .dict [("text", .int 7)])]])]])]

/-- C5: the claim that `POST /webhook` answers 200 for every envelope fails
on the code: an envelope whose `text` value is a number reaches
`.lower()`, which raises `AttributeError` — not in the handled
`except (KeyError, IndexError, TypeError)` tuple — so no 200 response is
produced; envelopes failing with the listed exception types (wrong shapes,
missing keys) are acknowledged with 200 as claimed. -/
theorem receive_message_uncaught :
    receive_message emptySt badEnvelope = .uncaught ∧
    receive_message emptySt (.int 3) = .ok 200 none ∧
    receive_message emptySt (.dict []) = .ok 200 none :=
  ⟨rfl, rfl, rfl⟩

/-- A well-formed event envelope carrying sender `sid` and text `txt`. -/
def mkEnvelope (sid txt : String) : PyVal :=
  .dict [("entry", .list [.dict [("messaging", .list [.dict
    [("sender", .dict [("id", .str sid)]),
     ("message", .dict [("text", .str txt)])]])]])]

theorem receiveTry_mkEnvelope (st : St) (sid txt : String) :
    receiveTry st (mkEnvelope sid txt) =
      .ok (some (.str sid, selectReplySpec st (lowerStr txt))) := by
  show (match selectReply st (lowerStr txt) with
      | some response_text => Except.ok (some (PyVal.str sid, response_text))
      | none => Except.error PyExn.attrError) =
    Except.ok (some (PyVal.str sid, selectReplySpec st (lowerStr txt)))
  rw [selectReply_eq]

/-- C8: for every successfully parsed event with a text message the endpoint
acknowledges with 200 and dispatches exactly the reply of the ordered
keyword policy over the lower-cased text — price keywords first, then
availability, then greeting, else the fixed fallback — where the price
branch picks the equipment by a case-insensitive substring match of each
message word against catalog names, first matching word first. -/
theorem receive_message_policy (st : St) (sid txt : String) :
    receive_message st (mkEnvelope sid txt) =
      .ok 200 (some (.str sid, selectReplySpec st (lowerStr txt))) := by
  unfold receive_message
  rw [receiveTry_mkEnvelope]
